import Mathlib

/-!
Shallow embedding of the gormer package (src/pkg/gormer.go), a generic
data-access helper layered over a gorm-style query builder.

Modelling choices, kept uniform through the file:

* A `*gorm.DB` handle is a `DBState`: an abstract backend (the external
  database client, an opaque collaborator per the design) plus the list of
  builder clauses accumulated so far.  Chained builder methods
  (`Model`, `Where`, `Preload`, `Order`, `Offset`, `Limit`) append clauses;
  terminal operations (`Count`, `Find`, `First`, `Create`, `Save`, `Delete`)
  hand the accumulated clause list to the backend, which may succeed or fail
  arbitrarily.  This mirrors gorm's value-like chaining (each method returns
  a derived handle; the caller's handle is unchanged).
* Go nil pointers are `Option`; calling a method on a nil handle or
  dereferencing a nil configuration is a Go runtime panic, modelled by the
  `GoOutcome.panics` outcome.
* Go `error` values are `Option Err`; `gorm.ErrRecordNotFound` (tested via
  `errors.Is` in `Query`) and the `"get db client failed"` error from the
  nil-handle guards are distinguished constructors, other store errors carry
  their message.
* Go `int`/`int64` are modelled as `Int`.  No claim under verification
  depends on 64-bit wrap-around, so machine-word overflow is not modelled.
* A nil Go slice and an empty slice iterate identically, so slice fields are
  plain `List`s; the source's `qc.Wheres != nil` / `qc.Preloads != nil`
  guards are semantically the empty-list case of the fold.
* Go heap aliasing (needed for the constructor-freshness claim) is modelled
  explicitly by a `Heap`: a list of cells addressed by index, with the
  constructors allocating a fresh cell and the fluent methods mutating the
  cell their pointer designates.
-/

namespace gormer

/-- Go error values reaching this package: `gorm.ErrRecordNotFound`, the
`"get db client failed"` error produced by the nil-handle guards
(`fmt.Errorf`), and opaque store errors carrying their message. -/
inductive Err where
  | recordNotFound
  | clientFailed
  | store (msg : String)
deriving DecidableEq

/-- Outcome of a Go call that may panic (nil-pointer dereference), return a
nil result together with an error, or return a proper result. -/
inductive GoOutcome (α : Type) where
  | panics
  | err (e : Err)
  | ok (a : α)
deriving DecidableEq

/-- Order (src/pkg/gormer.go lines 10-15): sort direction; `DESC` is the
zero value and hence the default. -/
inductive Order where
  | DESC
  | ASC
deriving DecidableEq

/-- Order.String (src/pkg/gormer.go lines 17-24): `ASC` prints `"asc"`, the
default branch prints `"desc"`. -/
def Order.string : Order → String
  | Order.ASC => "asc"
  | Order.DESC => "desc"

/-- Where (src/pkg/gormer.go lines 36-39): one filter fragment.  `Args` has
Go type `interface{}`, modelled by the type parameter `A`. -/
structure Where (A : Type) where
  Query : String
  Args : A
deriving DecidableEq

/-- AdviceItemFunc (src/pkg/gormer.go line 59): `func(t T) (T, error)`, a
post-fetch per-row transform hook. -/
def AdviceItemFunc (T : Type) : Type := T → T × Option Err

/-- QueryListConfig (src/pkg/gormer.go lines 26-34): the list configuration. -/
structure QueryListConfig (T A : Type) where
  PageSize : Int
  Page : Int
  Order : Order
  OrderBy : String
  Wheres : List (Where A)
  AdviceItemFuncs : List (AdviceItemFunc T)
  Preloads : List String

/-- QueryListResult (src/pkg/gormer.go lines 41-45). -/
structure QueryListResult (T : Type) where
  Total : Int
  Page : Int
  Data : List T
deriving DecidableEq

variable {T A : Type}

/-- NewQueryListConfig (src/pkg/gormer.go lines 47-57), as the allocated
value: defaults PageSize 10, Page 1, Order DESC, OrderBy "updated_at",
empty slices.  The freshness of the allocation itself is modelled by
`NewQueryListConfigH` below. -/
def NewQueryListConfig : QueryListConfig T A :=
  { PageSize := 10
    Page := 1
    Order := Order.DESC
    OrderBy := "updated_at"
    Wheres := []
    AdviceItemFuncs := []
    Preloads := [] }

/-- WithWheres (src/pkg/gormer.go lines 61-64): appends to the existing
filter list.  Value level: the in-place mutation through the receiver
pointer is `WithWheresH` below. -/
def QueryListConfig.WithWheres (qc : QueryListConfig T A) (wheres : List (Where A)) :
    QueryListConfig T A :=
  { qc with Wheres := qc.Wheres ++ wheres }

/-- WithPreloads (src/pkg/gormer.go lines 66-69): appends preload names. -/
def QueryListConfig.WithPreloads (qc : QueryListConfig T A) (preloads : List String) :
    QueryListConfig T A :=
  { qc with Preloads := qc.Preloads ++ preloads }

/-- WithAdviceItemFunc (src/pkg/gormer.go lines 71-74): appends hooks. -/
def QueryListConfig.WithAdviceItemFunc (qc : QueryListConfig T A)
    (funcs : List (AdviceItemFunc T)) : QueryListConfig T A :=
  { qc with AdviceItemFuncs := qc.AdviceItemFuncs ++ funcs }

/-- WithOrderBy (src/pkg/gormer.go lines 76-79). -/
def QueryListConfig.WithOrderBy (qc : QueryListConfig T A) (orderBy : String) :
    QueryListConfig T A :=
  { qc with OrderBy := orderBy }

/-- WithOrder (src/pkg/gormer.go lines 81-84). -/
def QueryListConfig.WithOrder (qc : QueryListConfig T A) (order : gormer.Order) :
    QueryListConfig T A :=
  { qc with Order := order }

/-- WithPageSize (src/pkg/gormer.go lines 86-92): non-positive input is
ignored, the prior value is kept. -/
def QueryListConfig.WithPageSize (qc : QueryListConfig T A) (pageSize : Int) :
    QueryListConfig T A :=
  if pageSize ≤ 0 then qc else { qc with PageSize := pageSize }

/-- WithPage (src/pkg/gormer.go lines 94-100): non-positive input is
ignored, the prior value is kept. -/
def QueryListConfig.WithPage (qc : QueryListConfig T A) (page : Int) :
    QueryListConfig T A :=
  if page ≤ 0 then qc else { qc with Page := page }

/-- QueryConfig (src/pkg/gormer.go lines 162-165): the point configuration. -/
structure QueryConfig (A : Type) where
  Wheres : List (Where A)
  Preloads : List String

/-- NewQueryConfig (src/pkg/gormer.go lines 167-171): empty filter and
preload lists. -/
def NewQueryConfig : QueryConfig A :=
  { Wheres := []
    Preloads := [] }

/-- QueryConfig.WithWheres (src/pkg/gormer.go lines 173-176). -/
def QueryConfig.WithWheres (qc : QueryConfig A) (wheres : List (Where A)) :
    QueryConfig A :=
  { qc with Wheres := qc.Wheres ++ wheres }

/-- QueryConfig.WithPreloads (src/pkg/gormer.go lines 178-181). -/
def QueryConfig.WithPreloads (qc : QueryConfig A) (preloads : List String) :
    QueryConfig A :=
  { qc with Preloads := qc.Preloads ++ preloads }

/-- One builder clause applied to a gorm handle.  `model` is the
`Model(*new(T))` binding (the bound type is the fixed parameter `T`, so it
carries no data); the others carry exactly what the source passes. -/
inductive Clause (A : Type) where
  | model
  | where_ (q : String) (a : A)
  | preload (name : String)
  | order (expr : String)
  | offset (n : Int)
  | limit (n : Int)
deriving DecidableEq

/-- The external database client (gorm plus the database behind it), an
opaque collaborator: each terminal operation receives the accumulated clause
list and may succeed or fail arbitrarily.  `first` reports a missing row as
`Err.recordNotFound`; `delete` receives the (possibly nil) entity pointer
passed to `db.Delete`. -/
structure Backend (T A : Type) where
  count : List (Clause A) → Except Err Int
  find : List (Clause A) → Except Err (List T)
  first : List (Clause A) → Except Err T
  create : List (Clause A) → T → Option Err
  save : List (Clause A) → T → Option Err
  delete : List (Clause A) → Option T → Option Err

/-- A non-nil `*gorm.DB` handle: the backend plus the clauses accumulated by
the chained builder calls made on it so far. -/
structure DBState (T A : Type) where
  backend : Backend T A
  clauses : List (Clause A)

/-- `db.Model(*new(T))`. -/
def DBState.model (db : DBState T A) : DBState T A :=
  { db with clauses := db.clauses ++ [Clause.model] }

/-- `db.Where(query, args)`. -/
def DBState.whereC (db : DBState T A) (q : String) (a : A) : DBState T A :=
  { db with clauses := db.clauses ++ [Clause.where_ q a] }

/-- `db.Preload(name)`. -/
def DBState.preloadC (db : DBState T A) (name : String) : DBState T A :=
  { db with clauses := db.clauses ++ [Clause.preload name] }

/-- `db.Order(expr)`. -/
def DBState.orderC (db : DBState T A) (expr : String) : DBState T A :=
  { db with clauses := db.clauses ++ [Clause.order expr] }

/-- `db.Offset(n)`. -/
def DBState.offsetC (db : DBState T A) (n : Int) : DBState T A :=
  { db with clauses := db.clauses ++ [Clause.offset n] }

/-- `db.Limit(n)`. -/
def DBState.limitC (db : DBState T A) (n : Int) : DBState T A :=
  { db with clauses := db.clauses ++ [Clause.limit n] }

/-- `db.Count(&out).Error` together with the counted value. -/
def DBState.countE (db : DBState T A) : Except Err Int :=
  db.backend.count db.clauses

/-- `db.Find(&out).Error` together with the fetched rows. -/
def DBState.findE (db : DBState T A) : Except Err (List T) :=
  db.backend.find db.clauses

/-- `db.First(out).Error`; a missing row is `Err.recordNotFound`. -/
def DBState.firstE (db : DBState T A) : Except Err T :=
  db.backend.first db.clauses

/-- `db.Create(&t).Error`. -/
def DBState.createE (db : DBState T A) (t : T) : Option Err :=
  db.backend.create db.clauses t

/-- `db.Save(t).Error`. -/
def DBState.saveE (db : DBState T A) (t : T) : Option Err :=
  db.backend.save db.clauses t

/-- `db.Delete(t).Error`, where `t` is a possibly-nil entity pointer. -/
def DBState.deleteE (db : DBState T A) (t : Option T) : Option Err :=
  db.backend.delete db.clauses t

/-- The `for _, where := range wheres { db = db.Where(...) }` loop shared by
QueryList, Exist and Query. -/
def whereFold (db : DBState T A) (ws : List (Where A)) : DBState T A :=
  ws.foldl (fun d w => d.whereC w.Query w.Args) db

/-- The `for _, preload := range preloads { db = db.Preload(...) }` loop. -/
def preloadFold (db : DBState T A) (ps : List String) : DBState T A :=
  ps.foldl (fun d p => d.preloadC p) db

/-- The where-loop guarded by `qc != nil && qc.Wheres != nil` in Exist and
Query (ranging over a nil slice iterates zero times, so the nil-slice guard
is the empty-list case). -/
def qcWhereFold (db : DBState T A) (qc : Option (QueryConfig A)) : DBState T A :=
  match qc with
  | none => db
  | some c => whereFold db c.Wheres

/-- The preload loop guarded by `qc != nil && qc.Preloads != nil` in Query. -/
def qcPreloadFold (db : DBState T A) (qc : Option (QueryConfig A)) : DBState T A :=
  match qc with
  | none => db
  | some c => preloadFold db c.Preloads

/-- One pass of the inner hook loop (src/pkg/gormer.go lines 139-146):
`qr.Data[j], err = itemFunc(datum)` stores the hook's returned value into
the row unconditionally; when the hook also returned an error it is logged
via `slog.Warn`. -/
def hookPass (f : AdviceItemFunc T) : List T → List T × List Err
  | [] => ([], [])
  | t :: ts =>
    let r := f t
    let rest := hookPass f ts
    (r.1 :: rest.1, (match r.2 with
      | some e => [e]
      | none => []) ++ rest.2)

/-- The outer hook loop: each configured hook is applied, in configuration
order, to every row of the current data, accumulating the warning log. -/
def runHooksAux : List (AdviceItemFunc T) → List T → List Err → List T × List Err
  | [], data, log => (data, log)
  | f :: fs, data, log =>
    let p := hookPass f data
    runHooksAux fs p.1 (log ++ p.2)

/-- Both hook loops of QueryList, started on the fetched rows with an empty
warning log. -/
def runHooks (fs : List (AdviceItemFunc T)) (data : List T) : List T × List Err :=
  runHooksAux fs data []

/-- QueryList (src/pkg/gormer.go lines 102-150).  Returns the Go outcome
paired with the `slog.Warn` log emitted by the hook loop.  The result
struct is initialised with `Page: qc.Page` before any handle is touched, so
a nil configuration panics first; `dc.Model` on a nil count handle panics
next; the count runs before the fetch handle `tdc` is touched, so a nil
`tdc` panics only after a successful count.  The `qc != nil && qc.Preloads
!= nil` test (line 128) is reached only after `qc` has already been
dereferenced and is the empty-list case of the preload fold. -/
def QueryList (dc? tdc? : Option (DBState T A)) (qc? : Option (QueryListConfig T A)) :
    GoOutcome (QueryListResult T) × List Err :=
  match qc? with
  | none => (GoOutcome.panics, [])
  | some qc =>
    match dc? with
    | none => (GoOutcome.panics, [])
    | some dc0 =>
      let dc := whereFold dc0.model qc.Wheres
      match dc.countE with
      | Except.error e => (GoOutcome.err e, [])
      | Except.ok total =>
        match tdc? with
        | none => (GoOutcome.panics, [])
        | some tdc0 =>
          let offset := (qc.Page - 1) * qc.PageSize
          let tdc := preloadFold (whereFold tdc0.model qc.Wheres) qc.Preloads
          let tdc :=
            ((tdc.orderC (qc.OrderBy ++ " " ++ qc.Order.string)).offsetC offset).limitC
              qc.PageSize
          match tdc.findE with
          | Except.error e => (GoOutcome.err e, [])
          | Except.ok rows =>
            let hr := runHooks qc.AdviceItemFuncs rows
            (GoOutcome.ok { Total := total, Page := qc.Page, Data := hr.1 }, hr.2)

/-- Create (src/pkg/gormer.go lines 152-160): nil-handle guard, then
`db.Model(*new(T)).Create(&t)`. -/
def Create (db? : Option (DBState T A)) (t : T) : Option Err :=
  match db? with
  | none => some Err.clientFailed
  | some db => db.model.createE t

/-- Exist (src/pkg/gormer.go lines 183-204): nil-handle guard, model
binding, guarded where-loop, count; a count failure is returned as
`(false, err)`, otherwise the result is `count > 0` with no error. -/
def Exist (db? : Option (DBState T A)) (qc? : Option (QueryConfig A)) :
    Bool × Option Err :=
  match db? with
  | none => (false, some Err.clientFailed)
  | some db0 =>
    let db := qcWhereFold db0.model qc?
    match db.countE with
    | Except.error e => (false, some e)
    | Except.ok count => (decide (0 < count), none)

/-- Update (src/pkg/gormer.go lines 206-211): nil-handle guard, then
`db.Save(t)`. -/
def Update (db? : Option (DBState T A)) (t : T) : Option Err :=
  match db? with
  | none => some Err.clientFailed
  | some db => db.saveE t

/-- Query (src/pkg/gormer.go lines 227-261): nil-handle guard, model
binding, guarded where- and preload-loops, `First`; a record-not-found error
becomes `(nil, nil)`, any other error `(nil, err)`, success `(t, nil)`. -/
def Query (db? : Option (DBState T A)) (qc? : Option (QueryConfig A)) :
    Option T × Option Err :=
  match db? with
  | none => (none, some Err.clientFailed)
  | some db0 =>
    let db := qcPreloadFold (qcWhereFold db0.model qc?) qc?
    match db.firstE with
    | Except.error e =>
      if e = Err.recordNotFound then (none, none) else (none, some e)
    | Except.ok t => (some t, none)

/-- Delete (src/pkg/gormer.go lines 213-225): nil-handle guard, then
`Query`; a Query error is returned; otherwise `db.Delete(t)` is issued on
the original handle with whatever entity pointer Query produced — including
the nil pointer of the not-found case. -/
def Delete (db? : Option (DBState T A)) (qc? : Option (QueryConfig A)) : Option Err :=
  match db? with
  | none => some Err.clientFailed
  | some db =>
    match Query (some db) qc? with
    | (_, some e) => some e
    | (t?, none) => db.deleteE t?

/-- Clause image of a filter list, for stating which clauses a terminal
operation received. -/
def whereClauses (ws : List (Where A)) : List (Clause A) :=
  ws.map (fun w => Clause.where_ w.Query w.Args)

/-- Clause image of a preload list. -/
def preloadClauses (ps : List String) : List (Clause A) :=
  ps.map Clause.preload

/-- Clause image of the guarded where-loop over an optional point
configuration. -/
def qcWhereClauses (qc? : Option (QueryConfig A)) : List (Clause A) :=
  match qc? with
  | none => []
  | some c => whereClauses c.Wheres

/-- Clause image of the guarded preload-loop over an optional point
configuration. -/
def qcPreloadClauses (qc? : Option (QueryConfig A)) : List (Clause A) :=
  match qc? with
  | none => []
  | some c => preloadClauses c.Preloads

/-- A Go heap of cells of one type, addressed by allocation index.  Pointer
aliasing of configuration objects is modelled here: the constructors
allocate, the fluent methods mutate the designated cell in place. -/
abbrev Heap (σ : Type) : Type := List σ

/-- Dereference a pointer. -/
def Heap.read (h : Heap σ) (p : Nat) : Option σ :=
  h[p]?

/-- Allocate a fresh cell holding `v`; returns the new heap and the fresh
pointer. -/
def Heap.alloc (h : Heap σ) (v : σ) : Heap σ × Nat :=
  (h ++ [v], h.length)

/-- Overwrite the cell a pointer designates. -/
def Heap.write (h : Heap σ) (p : Nat) (v : σ) : Heap σ :=
  h.set p v

/-- NewQueryListConfig (src/pkg/gormer.go lines 47-57) at the heap level:
`&QueryListConfig[T]{...defaults...}` allocates a fresh cell per call. -/
def NewQueryListConfigH (h : Heap (QueryListConfig T A)) :
    Heap (QueryListConfig T A) × Nat :=
  h.alloc NewQueryListConfig

/-- WithWheres at the heap level: mutates the receiver's cell in place and
returns the same pointer. -/
def WithWheresH (h : Heap (QueryListConfig T A)) (p : Nat) (ws : List (Where A)) :
    Heap (QueryListConfig T A) × Nat :=
  (match h.read p with
   | some qc => h.write p (qc.WithWheres ws)
   | none => h, p)

/-- NewQueryConfig (src/pkg/gormer.go lines 167-171) at the heap level:
`&QueryConfig{...}` allocates a fresh cell per call. -/
def NewQueryConfigH (h : Heap (QueryConfig A)) : Heap (QueryConfig A) × Nat :=
  h.alloc NewQueryConfig

/-- QueryConfig.WithWheres at the heap level. -/
def QCWithWheresH (h : Heap (QueryConfig A)) (p : Nat) (ws : List (Where A)) :
    Heap (QueryConfig A) × Nat :=
  (match h.read p with
   | some qc => h.write p (qc.WithWheres ws)
   | none => h, p)

/-- The count-query clause list of `QueryList`: only the model binding and
the filter fragments, on top of whatever the count handle already carried. -/
def countClauses (dc : DBState T A) (qc : QueryListConfig T A) : List (Clause A) :=
  dc.clauses ++ Clause.model :: whereClauses qc.Wheres

/-- The fetch-query clause list of `QueryList`: the filter fragments, the
preload names, `ORDER BY OrderBy Order`, `OFFSET (Page - 1) * PageSize` and
`LIMIT PageSize`, on top of whatever the fetch handle already carried. -/
def fetchClauses (tdc : DBState T A) (qc : QueryListConfig T A) : List (Clause A) :=
  tdc.clauses ++ Clause.model :: (whereClauses qc.Wheres ++ preloadClauses qc.Preloads
    ++ [Clause.order (qc.OrderBy ++ " " ++ qc.Order.string),
        Clause.offset ((qc.Page - 1) * qc.PageSize),
        Clause.limit qc.PageSize])

/-- Concrete backend for the hook scenarios: one matching row with value 5,
total count 1; point lookups find nothing; writes succeed. -/
def hookScenarioBackend : Backend Int String :=
  { count := fun _ => Except.ok 1
    find := fun _ => Except.ok [5]
    first := fun _ => Except.error Err.recordNotFound
    create := fun _ _ => none
    save := fun _ _ => none
    delete := fun _ _ => none }

/-- Concrete list configuration whose single hook increments the row value
and reports an error for every row. -/
def hookScenarioConfig : QueryListConfig Int String :=
  { (NewQueryListConfig : QueryListConfig Int String) with
      AdviceItemFuncs := [fun t => (t + 1, some (Err.store "hook failed"))] }

/-- Concrete backend for the Delete no-match scenario: no row matches
(`First` reports record-not-found) and, as gorm does for a delete issued
without any WHERE condition (the nil entity pointer carries no primary
key), the store-level delete of a nil entity fails. -/
def deleteNoMatchBackend : Backend Int String :=
  { count := fun _ => Except.ok 0
    find := fun _ => Except.ok []
    first := fun _ => Except.error Err.recordNotFound
    create := fun _ _ => none
    save := fun _ _ => none
    delete := fun _ t? =>
      match t? with
      | none => some (Err.store "WHERE conditions required")
      | some _ => none }

/-- Concrete backend for the successful-list scenario: 25 matching rows in
total, the fetched page holding the two rows 5 and 7. -/
def listScenarioBackend : Backend Int String :=
  { count := fun _ => Except.ok 25
    find := fun _ => Except.ok [5, 7]
    first := fun _ => Except.error Err.recordNotFound
    create := fun _ _ => none
    save := fun _ _ => none
    delete := fun _ _ => none }

/-- The where-loop appends exactly the clause images of the filter list, in
order, and leaves the backend untouched. -/
theorem whereFold_eq (db : DBState T A) (ws : List (Where A)) :
    whereFold db ws = ⟨db.backend, db.clauses ++ whereClauses ws⟩ := by
  induction ws generalizing db with
  | nil => simp [whereFold, whereClauses]
  | cons w ws ih =>
    simp only [whereFold, List.foldl_cons, whereClauses, List.map_cons]
    rw [show List.foldl (fun d x => d.whereC x.Query x.Args) (db.whereC w.Query w.Args) ws
        = whereFold (db.whereC w.Query w.Args) ws from rfl, ih]
    simp [DBState.whereC, whereClauses]

/-- The preload-loop appends exactly the clause images of the preload list. -/
theorem preloadFold_eq (db : DBState T A) (ps : List String) :
    preloadFold db ps = ⟨db.backend, db.clauses ++ preloadClauses ps⟩ := by
  induction ps generalizing db with
  | nil => simp [preloadFold, preloadClauses]
  | cons p ps ih =>
    simp only [preloadFold, List.foldl_cons, preloadClauses, List.map_cons]
    rw [show List.foldl (fun d x => d.preloadC x) (db.preloadC p) ps
        = preloadFold (db.preloadC p) ps from rfl, ih]
    simp [DBState.preloadC, preloadClauses]

/-- The guarded where-loop in clause-image form. -/
theorem qcWhereFold_eq (db : DBState T A) (qc? : Option (QueryConfig A)) :
    qcWhereFold db qc? = ⟨db.backend, db.clauses ++ qcWhereClauses qc?⟩ := by
  cases qc? with
  | none => simp [qcWhereFold, qcWhereClauses]
  | some c => simp [qcWhereFold, qcWhereClauses, whereFold_eq]

/-- The guarded preload-loop in clause-image form. -/
theorem qcPreloadFold_eq (db : DBState T A) (qc? : Option (QueryConfig A)) :
    qcPreloadFold db qc? = ⟨db.backend, db.clauses ++ qcPreloadClauses qc?⟩ := by
  cases qc? with
  | none => simp [qcPreloadFold, qcPreloadClauses]
  | some c => simp [qcPreloadFold, qcPreloadClauses, preloadFold_eq]

/-- One hook pass replaces every row with the first component of the hook's
return value and logs exactly the errors the hook returned, in row order. -/
theorem hookPass_eq (f : AdviceItemFunc T) (data : List T) :
    hookPass f data
      = (data.map (fun t => (f t).1), data.filterMap (fun t => (f t).2)) := by
  induction data with
  | nil => simp [hookPass]
  | cons t ts ih =>
    simp only [hookPass, ih, List.map_cons, List.filterMap_cons]
    cases h : (f t).2 <;> simp [h]

/-- The hook loops preserve the number of rows. -/
theorem runHooksAux_length (fs : List (AdviceItemFunc T)) (data : List T)
    (log : List Err) : (runHooksAux fs data log).1.length = data.length := by
  induction fs generalizing data log with
  | nil => simp [runHooksAux]
  | cons f fs ih =>
    simp [runHooksAux, ih, hookPass_eq]

/-- `runHooks` preserves the number of rows. -/
theorem runHooks_length (fs : List (AdviceItemFunc T)) (data : List T) :
    (runHooks fs data).1.length = data.length :=
  runHooksAux_length fs data []

/-- A single configured hook: the rows become the map of the hook's value
component and the log is exactly the hook's errors. -/
theorem runHooks_single (f : AdviceItemFunc T) (data : List T) :
    runHooks [f] data
      = (data.map (fun t => (f t).1), data.filterMap (fun t => (f t).2)) := by
  simp [runHooks, runHooksAux, hookPass_eq]

/-- Full characterization of `QueryList` on non-nil arguments: the count
backend call receives exactly `countClauses`, the find backend call exactly
`fetchClauses`; either failure aborts with that store error and no result;
on success the result carries the count, the configuration's page, and the
hook-transformed rows, alongside the hook warning log. -/
theorem queryList_eq (dc tdc : DBState T A) (qc : QueryListConfig T A) :
    QueryList (some dc) (some tdc) (some qc) =
      match dc.backend.count (countClauses dc qc) with
      | Except.error e => (GoOutcome.err e, [])
      | Except.ok total =>
        match tdc.backend.find (fetchClauses tdc qc) with
        | Except.error e => (GoOutcome.err e, [])
        | Except.ok rows =>
          (GoOutcome.ok ⟨total, qc.Page, (runHooks qc.AdviceItemFuncs rows).1⟩,
            (runHooks qc.AdviceItemFuncs rows).2) := by
  have hdc : whereFold (dc.model) qc.Wheres
      = ⟨dc.backend, countClauses dc qc⟩ := by
    rw [whereFold_eq]
    simp [DBState.model, countClauses]
  have htdc :
      (((preloadFold (whereFold tdc.model qc.Wheres) qc.Preloads).orderC
            (qc.OrderBy ++ " " ++ qc.Order.string)).offsetC
          ((qc.Page - 1) * qc.PageSize)).limitC qc.PageSize
        = ⟨tdc.backend, fetchClauses tdc qc⟩ := by
    rw [whereFold_eq, preloadFold_eq]
    simp [DBState.model, DBState.orderC, DBState.offsetC, DBState.limitC, fetchClauses]
  simp only [QueryList, hdc, htdc, DBState.countE, DBState.findE]

/-- C1 (amended): for a configuration with a hook, a hook error is
non-fatal — QueryList still returns a non-nil result with no error and the
error is logged as a warning — but the row does NOT retain its pre-hook
value: `qr.Data[j], err = itemFunc(datum)` stores the hook's returned value
into the row unconditionally, so each row becomes the value component of
the hook's return, and the log collects exactly the hook's errors. -/
theorem queryList_hook_error_nonfatal (dc tdc : DBState T A)
    (qc : QueryListConfig T A) (f : AdviceItemFunc T) (n : Int) (rows : List T)
    (hhooks : qc.AdviceItemFuncs = [f])
    (hc : dc.backend.count (countClauses dc qc) = Except.ok n)
    (hf : tdc.backend.find (fetchClauses tdc qc) = Except.ok rows) :
    QueryList (some dc) (some tdc) (some qc)
      = (GoOutcome.ok ⟨n, qc.Page, rows.map (fun t => (f t).1)⟩,
          rows.filterMap (fun t => (f t).2)) := by
  rw [queryList_eq, hc, hf, hhooks]
  simp [runHooks_single]

/-- C1 witness: one fetched row 5, one hook that errors and returns 6; the
call succeeds with the row replaced by 6 and the error logged. -/
theorem queryList_hook_error_nonfatal_witness :
    QueryList (some ⟨hookScenarioBackend, []⟩) (some ⟨hookScenarioBackend, []⟩)
        (some hookScenarioConfig)
      = (GoOutcome.ok ⟨1, 1, [6]⟩, [Err.store "hook failed"]) := by
  have h := queryList_hook_error_nonfatal ⟨hookScenarioBackend, []⟩
    ⟨hookScenarioBackend, []⟩ hookScenarioConfig
    (fun t => (t + 1, some (Err.store "hook failed"))) 1 [5] rfl rfl rfl
  exact h

/-- C1 counterexample: the fetched row is 5 and the hook errors while
returning 6, yet the returned data holds 6 — the row does not retain its
pre-hook value 5, contrary to the claim (the call itself still succeeds and
the error is only logged). -/
theorem queryList_hook_error_overwrites_row :
    QueryList (some ⟨hookScenarioBackend, []⟩) (some ⟨hookScenarioBackend, []⟩)
        (some hookScenarioConfig)
      = (GoOutcome.ok ⟨1, 1, [6]⟩, [Err.store "hook failed"])
    ∧ (QueryList (some ⟨hookScenarioBackend, []⟩) (some ⟨hookScenarioBackend, []⟩)
        (some hookScenarioConfig)).1 ≠ GoOutcome.ok ⟨1, 1, [5]⟩ := by
  constructor
  · rfl
  · decide

/-- C2: with no matching row, the current Delete (src/pkg/gormer.go lines
213-225) does not stop after the not-found Query: it still issues a
store-level delete carrying the nil entity pointer Query produced, and it
returns that call's error instead of succeeding as a no-op.  (The earlier
iteration, src/unnamed/part_000 lines 177-198, guarded this path with
Exist and returned nil without touching the store.) -/
theorem delete_no_match_issues_store_delete :
    Delete (some ⟨deleteNoMatchBackend, []⟩) (some (NewQueryConfig : QueryConfig String))
      = some (Err.store "WHERE conditions required") := rfl

/-- C3: Exist returns `count > 0` with no error exactly when the filtered
count succeeds, and surfaces a count failure as `(false, that error)` —
never as a silent `(false, nil)`.  The count query holds exactly the model
binding plus the configuration's filter fragments. -/
theorem exist_count_characterization (db : DBState T A)
    (qc? : Option (QueryConfig A)) :
    Exist (some db) qc? =
      match db.backend.count (db.clauses ++ Clause.model :: qcWhereClauses qc?) with
      | Except.error e => (false, some e)
      | Except.ok c => (decide (0 < c), none) := by
  have h : qcWhereFold (DBState.model db) qc?
      = ⟨db.backend, db.clauses ++ Clause.model :: qcWhereClauses qc?⟩ := by
    rw [qcWhereFold_eq]
    simp [DBState.model]
  simp only [Exist, h, DBState.countE]

/-- Reading the cell just allocated at the end of a heap yields the value
placed there. -/
theorem heap_read_concat (h : Heap σ) (v : σ) :
    Heap.read (h ++ [v]) h.length = some v := by
  simp [Heap.read, List.getElem?_concat_length]

/-- Appending cells does not change what earlier pointers designate. -/
theorem heap_read_append (h : Heap σ) (l : List σ) (p : Nat) (hp : p < h.length) :
    Heap.read (h ++ l) p = Heap.read h p := by
  simp [Heap.read, List.getElem?_append_left hp]

/-- Writing through one pointer does not change what a different pointer
designates. -/
theorem heap_read_write_ne (h : Heap σ) (p q : Nat) (v : σ) (hne : p ≠ q) :
    Heap.read (h.write p v) q = Heap.read h q := by
  simp [Heap.read, Heap.write, List.getElem?_set_ne hne]

/-- C4: two constructor calls allocate distinct cells, each holding the
stated defaults (PageSize 10, Page 1, DESC, "updated_at", empty sequences
for the list configuration; empty sequences for the point configuration),
and mutating one configuration through WithWheres leaves the other cell
untouched. -/
theorem new_config_fresh_independent
    (h0 h1 h2 : Heap (QueryListConfig T A)) (g0 g1 g2 : Heap (QueryConfig A))
    (p1 p2 q1 q2 : Nat) (ws : List (Where A))
    (hp1 : NewQueryListConfigH h0 = (h1, p1))
    (hp2 : NewQueryListConfigH h1 = (h2, p2))
    (hq1 : NewQueryConfigH g0 = (g1, q1))
    (hq2 : NewQueryConfigH g1 = (g2, q2)) :
    p1 ≠ p2
    ∧ h2.read p1 = some ⟨10, 1, Order.DESC, "updated_at", [], [], []⟩
    ∧ h2.read p2 = some ⟨10, 1, Order.DESC, "updated_at", [], [], []⟩
    ∧ (WithWheresH h2 p2 ws).1.read p1 = h2.read p1
    ∧ (WithWheresH h2 p1 ws).1.read p2 = h2.read p2
    ∧ q1 ≠ q2
    ∧ g2.read q1 = some ⟨[], []⟩
    ∧ g2.read q2 = some ⟨[], []⟩
    ∧ (QCWithWheresH g2 q2 ws).1.read q1 = g2.read q1
    ∧ (QCWithWheresH g2 q1 ws).1.read q2 = g2.read q2 := by
  obtain ⟨rfl, rfl⟩ : h1 = h0 ++ [NewQueryListConfig] ∧ p1 = h0.length := by
    simp only [NewQueryListConfigH, Heap.alloc, Prod.mk.injEq] at hp1
    exact ⟨hp1.1.symm, hp1.2.symm⟩
  obtain ⟨rfl, rfl⟩ :
      h2 = (h0 ++ [NewQueryListConfig]) ++ [NewQueryListConfig]
        ∧ p2 = (h0 ++ [NewQueryListConfig]).length := by
    simp only [NewQueryListConfigH, Heap.alloc, Prod.mk.injEq] at hp2
    exact ⟨hp2.1.symm, hp2.2.symm⟩
  obtain ⟨rfl, rfl⟩ : g1 = g0 ++ [NewQueryConfig] ∧ q1 = g0.length := by
    simp only [NewQueryConfigH, Heap.alloc, Prod.mk.injEq] at hq1
    exact ⟨hq1.1.symm, hq1.2.symm⟩
  obtain ⟨rfl, rfl⟩ :
      g2 = (g0 ++ [NewQueryConfig]) ++ [NewQueryConfig]
        ∧ q2 = (g0 ++ [NewQueryConfig]).length := by
    simp only [NewQueryConfigH, Heap.alloc, Prod.mk.injEq] at hq2
    exact ⟨hq2.1.symm, hq2.2.symm⟩
  have hplt : h0.length < (h0 ++ [NewQueryListConfig (T := T) (A := A)]).length := by
    simp
  have hglt : g0.length < (g0 ++ [NewQueryConfig (A := A)]).length := by
    simp
  have hpne : h0.length ≠ (h0 ++ [NewQueryListConfig (T := T) (A := A)]).length := by
    omega
  have hgne : g0.length ≠ (g0 ++ [NewQueryConfig (A := A)]).length := by
    omega
  have hr1 : Heap.read ((h0 ++ [NewQueryListConfig]) ++ [NewQueryListConfig]) h0.length
      = some (NewQueryListConfig (T := T) (A := A)) := by
    rw [heap_read_append _ _ _ hplt, heap_read_concat]
  have hr2 : Heap.read ((h0 ++ [NewQueryListConfig]) ++ [NewQueryListConfig])
      (h0 ++ [NewQueryListConfig (T := T) (A := A)]).length
      = some (NewQueryListConfig (T := T) (A := A)) := heap_read_concat _ _
  have gr1 : Heap.read ((g0 ++ [NewQueryConfig]) ++ [NewQueryConfig]) g0.length
      = some (NewQueryConfig (A := A)) := by
    rw [heap_read_append _ _ _ hglt, heap_read_concat]
  have gr2 : Heap.read ((g0 ++ [NewQueryConfig]) ++ [NewQueryConfig])
      (g0 ++ [NewQueryConfig (A := A)]).length
      = some (NewQueryConfig (A := A)) := heap_read_concat _ _
  refine ⟨hpne, hr1, hr2, ?_, ?_, hgne, gr1, gr2, ?_, ?_⟩
  · simp only [WithWheresH, hr2]
    exact heap_read_write_ne _ _ _ _ (fun h => hpne h.symm)
  · simp only [WithWheresH, hr1]
    exact heap_read_write_ne _ _ _ _ hpne
  · simp only [QCWithWheresH, gr2]
    exact heap_read_write_ne _ _ _ _ (fun h => hgne h.symm)
  · simp only [QCWithWheresH, gr1]
    exact heap_read_write_ne _ _ _ _ hgne

/-- C4 witness: two allocations on the empty heaps give pointers 0 and 1;
the defaults are read back and a mutation of one cell leaves the other
cell's contents unchanged. -/
theorem new_config_fresh_independent_witness :
    (0 : Nat) ≠ 1
    ∧ Heap.read [NewQueryListConfig, (NewQueryListConfig : QueryListConfig Int String)] 0
      = some ⟨10, 1, Order.DESC, "updated_at", [], [], []⟩
    ∧ Heap.read [NewQueryListConfig, (NewQueryListConfig : QueryListConfig Int String)] 1
      = some ⟨10, 1, Order.DESC, "updated_at", [], [], []⟩
    ∧ (WithWheresH [NewQueryListConfig, (NewQueryListConfig : QueryListConfig Int String)]
        1 [⟨"id = ?", "1"⟩]).1.read 0
      = Heap.read [NewQueryListConfig, (NewQueryListConfig : QueryListConfig Int String)] 0
    ∧ (WithWheresH [NewQueryListConfig, (NewQueryListConfig : QueryListConfig Int String)]
        0 [⟨"id = ?", "1"⟩]).1.read 1
      = Heap.read [NewQueryListConfig, (NewQueryListConfig : QueryListConfig Int String)] 1
    ∧ (0 : Nat) ≠ 1
    ∧ Heap.read [NewQueryConfig, (NewQueryConfig : QueryConfig String)] 0 = some ⟨[], []⟩
    ∧ Heap.read [NewQueryConfig, (NewQueryConfig : QueryConfig String)] 1 = some ⟨[], []⟩
    ∧ (QCWithWheresH [NewQueryConfig, (NewQueryConfig : QueryConfig String)]
        1 [⟨"id = ?", "1"⟩]).1.read 0
      = Heap.read [NewQueryConfig, (NewQueryConfig : QueryConfig String)] 0
    ∧ (QCWithWheresH [NewQueryConfig, (NewQueryConfig : QueryConfig String)]
        0 [⟨"id = ?", "1"⟩]).1.read 1
      = Heap.read [NewQueryConfig, (NewQueryConfig : QueryConfig String)] 1 := by
  have h := new_config_fresh_independent
    ([] : Heap (QueryListConfig Int String)) [NewQueryListConfig]
    [NewQueryListConfig, NewQueryListConfig]
    ([] : Heap (QueryConfig String)) [NewQueryConfig] [NewQueryConfig, NewQueryConfig]
    0 1 0 1 [⟨"id = ?", "1"⟩] rfl rfl rfl rfl
  exact h

/-- C5: the count backend call of QueryList receives exactly the model
binding and every filter fragment (no ordering, pagination or preload) on
the count handle; the fetch backend call receives every filter fragment,
every preload name, `ORDER BY OrderBy Order`, `OFFSET (Page - 1) *
PageSize` and `LIMIT PageSize` on the other handle; a failure of either
call aborts the operation with that store error and no result. -/
theorem queryList_two_queries (dc tdc : DBState T A) (qc : QueryListConfig T A) :
    QueryList (some dc) (some tdc) (some qc) =
      match dc.backend.count (dc.clauses ++ Clause.model :: whereClauses qc.Wheres) with
      | Except.error e => (GoOutcome.err e, [])
      | Except.ok total =>
        match tdc.backend.find (tdc.clauses ++ Clause.model :: (whereClauses qc.Wheres
            ++ preloadClauses qc.Preloads
            ++ [Clause.order (qc.OrderBy ++ " " ++ qc.Order.string),
                Clause.offset ((qc.Page - 1) * qc.PageSize),
                Clause.limit qc.PageSize])) with
        | Except.error e => (GoOutcome.err e, [])
        | Except.ok rows =>
          (GoOutcome.ok ⟨total, qc.Page, (runHooks qc.AdviceItemFuncs rows).1⟩,
            (runHooks qc.AdviceItemFuncs rows).2) :=
  queryList_eq dc tdc qc

/-- C6: a successful QueryList returns Page equal to the configuration's
page, Total equal to the unpaginated filtered count (whatever the fetch
returned), and Data equal to the fetched rows transformed by the configured
hooks; provided the store honoured the LIMIT clause (at most PageSize rows
fetched), the returned data has length at most PageSize. -/
theorem queryList_result_shape (dc tdc : DBState T A) (qc : QueryListConfig T A)
    (n : Int) (rows : List T)
    (hc : dc.backend.count (countClauses dc qc) = Except.ok n)
    (hf : tdc.backend.find (fetchClauses tdc qc) = Except.ok rows)
    (hlen : (rows.length : Int) ≤ qc.PageSize) :
    QueryList (some dc) (some tdc) (some qc)
      = (GoOutcome.ok ⟨n, qc.Page, (runHooks qc.AdviceItemFuncs rows).1⟩,
          (runHooks qc.AdviceItemFuncs rows).2)
    ∧ (((runHooks qc.AdviceItemFuncs rows).1.length : Int)) ≤ qc.PageSize := by
  refine ⟨?_, ?_⟩
  · rw [queryList_eq, hc, hf]
  · rw [runHooks_length]
    exact hlen

/-- C6 witness: 25 matching rows, page 1 of size 10 fetching rows 5 and 7,
no hooks: the result is Total 25, Page 1, Data the two fetched rows, with
the data length below the page size. -/
theorem queryList_result_shape_witness :
    QueryList (some ⟨listScenarioBackend, []⟩) (some ⟨listScenarioBackend, []⟩)
        (some (NewQueryListConfig : QueryListConfig Int String))
      = (GoOutcome.ok ⟨25, 1, [5, 7]⟩, [])
    ∧ (([5, 7] : List Int).length : Int) ≤ 10 := by
  have h := queryList_result_shape ⟨listScenarioBackend, []⟩ ⟨listScenarioBackend, []⟩
    (NewQueryListConfig : QueryListConfig Int String) 25 [5, 7] rfl rfl (by decide)
  exact h

/-- C7: Query applies the model binding, the filters and the preloads, then
fetches the first row: a record-not-found outcome yields `(nil, nil)` — a
distinguished non-error result — any other store failure yields `(nil, that
error)`, and a matching row yields `(row, nil)`. -/
theorem query_not_found_vs_failure (db : DBState T A)
    (qc? : Option (QueryConfig A)) :
    Query (some db) qc? =
      match db.backend.first (db.clauses ++ Clause.model ::
          (qcWhereClauses qc? ++ qcPreloadClauses qc?)) with
      | Except.error e =>
        if e = Err.recordNotFound then (none, none) else (none, some e)
      | Except.ok t => (some t, none) := by
  have h : qcPreloadFold (qcWhereFold (DBState.model db) qc?) qc?
      = ⟨db.backend, db.clauses ++ Clause.model ::
          (qcWhereClauses qc? ++ qcPreloadClauses qc?)⟩ := by
    rw [qcWhereFold_eq, qcPreloadFold_eq]
    simp [DBState.model]
  simp only [Query, h, DBState.firstE]

/-- C8: WithPageSize and WithPage ignore non-positive arguments, returning
the receiver unchanged (so an untouched configuration keeps the defaults 10
and 1), and set the respective field for positive arguments. -/
theorem withPageSize_withPage_clamp (qc : QueryListConfig T A) (n : Int) :
    (n ≤ 0 → qc.WithPageSize n = qc ∧ qc.WithPage n = qc)
    ∧ (0 < n → qc.WithPageSize n = { qc with PageSize := n }
        ∧ qc.WithPage n = { qc with Page := n })
    ∧ (NewQueryListConfig : QueryListConfig T A).PageSize = 10
    ∧ (NewQueryListConfig : QueryListConfig T A).Page = 1 := by
  refine ⟨fun h => ⟨?_, ?_⟩, fun h => ⟨?_, ?_⟩, rfl, rfl⟩
  · simp [QueryListConfig.WithPageSize, h]
  · simp [QueryListConfig.WithPage, h]
  · simp [QueryListConfig.WithPageSize, show ¬n ≤ 0 by omega]
  · simp [QueryListConfig.WithPage, show ¬n ≤ 0 by omega]

/-- C8 witness: the arguments -5 and 0 leave a fresh configuration's
PageSize and Page at their defaults, the argument 7 sets them. -/
theorem withPageSize_withPage_clamp_witness :
    ((NewQueryListConfig : QueryListConfig Int String).WithPageSize (-5)
        = NewQueryListConfig
      ∧ (NewQueryListConfig : QueryListConfig Int String).WithPage (-5)
        = NewQueryListConfig)
    ∧ ((NewQueryListConfig : QueryListConfig Int String).WithPageSize 7
        = { (NewQueryListConfig : QueryListConfig Int String) with PageSize := 7 }
      ∧ (NewQueryListConfig : QueryListConfig Int String).WithPage 7
        = { (NewQueryListConfig : QueryListConfig Int String) with Page := 7 }) :=
  ⟨(withPageSize_withPage_clamp NewQueryListConfig (-5)).1 (by decide),
   (withPageSize_withPage_clamp NewQueryListConfig 7).2.1 (by decide)⟩

/-- C9: QueryList has no nil guard: a nil configuration panics (the result
struct dereferences `qc.Page` first), a nil count handle panics, and a nil
fetch handle panics as soon as it is touched (after a successful count; a
failing count surfaces that store error first) — never the distinct
"get db client failed" error that Create, Update, Delete, Exist and Query
return on a nil handle before touching the store. -/
theorem queryList_no_nil_guard {T A : Type} :
    (∀ (dc? tdc? : Option (DBState T A)),
        QueryList dc? tdc? none = (GoOutcome.panics, []))
    ∧ (∀ (tdc? : Option (DBState T A)) (qc : QueryListConfig T A),
        QueryList none tdc? (some qc) = (GoOutcome.panics, []))
    ∧ (∀ (dc : DBState T A) (qc : QueryListConfig T A),
        QueryList (some dc) none (some qc)
          = match dc.backend.count (countClauses dc qc) with
            | Except.error e => (GoOutcome.err e, [])
            | Except.ok _ => (GoOutcome.panics, []))
    ∧ (∀ t : T, Create (none : Option (DBState T A)) t = some Err.clientFailed)
    ∧ (∀ t : T, Update (none : Option (DBState T A)) t = some Err.clientFailed)
    ∧ (∀ qc? : Option (QueryConfig A),
        Exist (none : Option (DBState T A)) qc? = (false, some Err.clientFailed))
    ∧ (∀ qc? : Option (QueryConfig A),
        Query (none : Option (DBState T A)) qc? = (none, some Err.clientFailed))
    ∧ (∀ qc? : Option (QueryConfig A),
        Delete (none : Option (DBState T A)) qc? = some Err.clientFailed) := by
  refine ⟨fun dc? tdc? => rfl, fun tdc? qc => rfl, fun dc qc => ?_,
    fun t => rfl, fun t => rfl, fun qc? => rfl, fun qc? => rfl, fun qc? => rfl⟩
  have hdc : whereFold (DBState.model dc) qc.Wheres
      = ⟨dc.backend, countClauses dc qc⟩ := by
    rw [whereFold_eq]
    simp [DBState.model, countClauses]
  simp only [QueryList, hdc, DBState.countE]

/-- C10: Exist, Query and hence Delete treat a nil point configuration
exactly as the freshly constructed empty one (no filters, no preloads): the
operation runs against all rows of T instead of failing. -/
theorem nil_point_config_unfiltered (db : DBState T A) :
    Exist (some db) none = Exist (some db) (some NewQueryConfig)
    ∧ Query (some db) none = Query (some db) (some NewQueryConfig)
    ∧ Delete (some db) none = Delete (some db) (some NewQueryConfig) :=
  ⟨rfl, rfl, rfl⟩

end gormer
